import Mathlib

/-!
A verification development for warp's request-logging decorator
(`src/filters/log.rs`).

The decorator `Log::decorate` wraps an inner filter: on each invocation it
captures a start instant, runs the inner filter, classifies the completed
outcome to a status code (success: render the reply to a `Response` and read
its status; failure: query the rejection's status), calls the observer once
with an `Info` record, and forwards the outcome (success re-wrapped in
`Logged`, failure unchanged).

The shallow embedding below models one invocation of the decorated stage as a
pure function of the inner filter's capabilities (`into_response`, the
rejection's `status` accessor), the captured start instant, and the inner
outcome.  Monotonic instants are modelled as integers.  Cancellation before
the inner filter completes is modelled by the inner outcome being `none`:
in that case the `then` closure of the source never runs.
-/

namespace Warp

/-- HTTP status code (`http::StatusCode`), modelled by its numeric value
(the value `as_u16` returns). -/
abbrev StatusCode := Nat

/-- Monotonic instant (`std::time::Instant`), modelled as an integer point on
a global time line. -/
abbrev Instant := Int

/-- The rendered response form (`::reply::Response`).  The decorator only
reads its status code; the remaining payload is an opaque body. -/
structure Response where
  status : StatusCode
  body : List Nat
deriving DecidableEq

/-- `internal::Logged` (log.rs lines 123-131): a single-field wrapper around
a rendered `Response`. -/
structure Logged where
  resp : Response
deriving DecidableEq

/-- `ReplySealed::into_response` for `Logged` (log.rs lines 126-131): unwrap
the held response. -/
def Logged.into_response (l : Logged) : Response :=
  l.resp

/-- Modelled from the spec: `::never::Never` is not under src/; the spec
describes it as "an explicit sum type with no constructors", the uninhabited
error type of the decorator itself. -/
inductive Never : Type

/-- Modelled from the spec: the error-type-combination operation
(`::reject::CombineRejection`) is not under src/; the spec describes the
instrumented stage's error type as "the union ('combination') of the inner
stage's error type and a second, always-empty error type".  Combining the
inner error type `E` with the decorator's own `Never` is modelled as the sum
whose right variant is `Never`. -/
def CombinedRejection (E : Type) : Type :=
  E ⊕ Never

/-- `One<T>`: warp's single-element extraction tuple `(T,)`, so a decorated
stage always extracts exactly one value. -/
abbrev One (α : Type) : Type := α × PUnit

/-- `Info` (log.rs lines 66-74): the immutable record handed to the observer,
holding the captured start instant and the classified status code. -/
structure Info where
  start : Instant
  status : StatusCode
deriving DecidableEq

/-- Everything observable about one invocation of the decorated stage:
the forwarded outcome (`none` when the invocation was cancelled before the
inner filter completed), the sequence of `Info` records passed to the
observer, and the sequence of responses produced by calls to
`into_response`. -/
structure InvokeResult (E : Type) where
  outcome : Option (Except E (One Logged))
  observerCalls : List Info
  renders : List Response

/-- One invocation of the stage produced by `Log::decorate` (log.rs lines
90-116).  `into_response` is the inner extract's `Reply::into_response`,
`statusOf` the inner error's `Reject::status`, `start` the instant captured
on entry of the `and_then` closure, and `innerOutcome` the inner filter's
completion: `some r` when it completed with `r`, `none` when the invocation
was cancelled first, in which case the `then` closure (lines 97-115) never
runs. -/
def decorate {A E : Type} (into_response : A → Response)
    (statusOf : E → StatusCode) (start : Instant)
    (innerOutcome : Option (Except E A)) : InvokeResult E :=
  match innerOutcome with
  | none =>
      { outcome := none, observerCalls := [], renders := [] }
  | some (Except.ok rep) =>
      let resp := into_response rep
      let status := resp.status
      { outcome := some (Except.ok (Logged.mk resp, PUnit.unit))
        observerCalls := [{ start := start, status := status }]
        renders := [resp] }
  | some (Except.error reject) =>
      let status := statusOf reject
      { outcome := some (Except.error reject)
        observerCalls := [{ start := start, status := status }]
        renders := [] }

/-- The Outcome Classifier: the status code the decorator derives from a
completed inner outcome (log.rs lines 98-108) — on success render the reply
and read the response's status, on failure query the rejection's status
directly. -/
def classify {A E : Type} (into_response : A → Response)
    (statusOf : E → StatusCode) : Except E A → StatusCode
  | Except.ok rep => (into_response rep).status
  | Except.error reject => statusOf reject

/-- Events of one invocation of the decorated stage, in the order the source
performs them. -/
inductive Event (A E : Type) where
  | startCapture (t : Instant)
  | innerRun
  | innerComplete (r : Except E A)
  | classified (s : StatusCode)
  | observed (i : Info)
  | forwarded (r : Except E (One Logged))

/-- Event trace of one completed (non-cancelled) invocation of the decorated
stage, following the control flow of log.rs lines 92-115: capture `start`,
run the inner filter, receive its completed result, classify it, call the
observer with the `Info` record, forward the outcome. -/
def decorateTrace {A E : Type} (into_response : A → Response)
    (statusOf : E → StatusCode) (start : Instant) (result : Except E A) :
    List (Event A E) :=
  match result with
  | Except.ok rep =>
      let resp := into_response rep
      [Event.startCapture start, Event.innerRun,
       Event.innerComplete (Except.ok rep), Event.classified resp.status,
       Event.observed { start := start, status := resp.status },
       Event.forwarded (Except.ok (Logged.mk resp, PUnit.unit))]
  | Except.error reject =>
      [Event.startCapture start, Event.innerRun,
       Event.innerComplete (Except.error reject),
       Event.classified (statusOf reject),
       Event.observed { start := start, status := statusOf reject },
       Event.forwarded (Except.error reject)]

/-- The ambient per-request route context (`::route`), an external
collaborator exposing method, full request path and protocol version. -/
structure Route where
  method : String
  full_path : String
  version : String
deriving DecidableEq

/-- One formatted access-log line as emitted by the built-in observer of
`log(name)` (log.rs lines 41-49): target `name`, the ambient route's method,
full path and version, the numeric status code, and the elapsed duration
since `start`. -/
structure LogLine where
  target : String
  method : String
  full_path : String
  version : String
  status : StatusCode
  elapsed : Int
deriving DecidableEq

/-- The built-in observer constructed by `log(name)` (log.rs lines 34-55):
it reads the ambient route context at the moment it is called (`route::with`)
and emits one formatted line via the `info!` macro.  `route` is the ambient
context at call time and `now` the current instant used by
`info.start.elapsed()`; emission is modelled as the list of lines
produced. -/
def logObserver (name : String) (route : Route) (now : Instant)
    (info : Info) : List LogLine :=
  [{ target := name, method := route.method, full_path := route.full_path
     version := route.version, status := info.status
     elapsed := now - info.start }]

/-- All access-log lines emitted during one invocation of a stage decorated
with the default observer of `log(name)`: the built-in observer runs once per
observer call made by `decorate`. -/
def logDecorate {A E : Type} (into_response : A → Response)
    (statusOf : E → StatusCode) (name : String) (route : Route)
    (now : Instant) (start : Instant)
    (innerOutcome : Option (Except E A)) : List LogLine :=
  (decorate into_response statusOf start innerOutcome).observerCalls.flatMap
    (logObserver name route now)

/-- Sample renderable extract used by witnesses. -/
def renderNat (n : Nat) : Response :=
  { status := 200, body := [n] }

/-- Sample rejection status accessor used by witnesses. -/
def rejectNat (e : Nat) : StatusCode :=
  400 + e % 100

/-- C1: for every completed invocation the observer is invoked exactly once,
and the `Info` record's status is the status obtained by classifying the
inner outcome directly: on success the status read off the directly rendered
response, on failure the status queried from the failure value. -/
theorem observer_once_with_classified_status {A E : Type}
    (into_response : A → Response) (statusOf : E → StatusCode)
    (start : Instant) (r : Except E A) :
    (decorate into_response statusOf start (some r)).observerCalls.length = 1 ∧
    (decorate into_response statusOf start (some r)).observerCalls.head? =
      some { start := start, status := classify into_response statusOf r } := by
  cases r <;> exact ⟨rfl, rfl⟩

/-- C2: when the inner stage fails with `e`, the decorated stage forwards
exactly that failure value — not swallowed, not altered, not duplicated —
and the observer sees its status. -/
theorem failure_forwarded_unchanged {A E : Type}
    (into_response : A → Response) (statusOf : E → StatusCode)
    (start : Instant) (e : E) :
    (decorate into_response statusOf start
        (some (Except.error e : Except E A))).outcome =
      some (Except.error e) ∧
    (decorate into_response statusOf start
        (some (Except.error e : Except E A))).observerCalls =
      [{ start := start, status := statusOf e }] :=
  ⟨rfl, rfl⟩

/-- C3: unwrapping the transparent wrapper built around a rendered response
yields exactly that response: `Logged(r).into_response() = r`. -/
theorem logged_roundtrip (r : Response) :
    (Logged.mk r).into_response = r :=
  rfl

/-- C4: the decorator introduces no failure of its own.  Its own error type
`Never` is uninhabited, every value of the combined rejection type comes from
the inner error type's variant, and any failure a completed invocation
forwards is exactly a failure the inner stage produced. -/
theorem no_decorator_originated_failure {A E : Type}
    (into_response : A → Response) (statusOf : E → StatusCode)
    (start : Instant) (innerOutcome : Option (Except E A)) (e : E)
    (h : (decorate into_response statusOf start innerOutcome).outcome =
      some (Except.error e)) :
    innerOutcome = some (Except.error e) ∧
    (∀ n : Never, False) ∧
    (∀ x : CombinedRejection E, ∃ e0 : E, x = Sum.inl e0) := by
  refine ⟨?_, ?_, ?_⟩
  · match innerOutcome with
    | none => simp [decorate] at h
    | some (Except.ok rep) => simp [decorate] at h
    | some (Except.error e0) =>
        simp [decorate] at h
        subst h
        rfl
  · intro n
    cases n
  · intro x
    cases x with
    | inl e0 => exact ⟨e0, rfl⟩
    | inr n => cases n

/-- Witness for C4 at a concrete failing invocation. -/
theorem no_decorator_originated_failure_witness :
    (decorate renderNat rejectNat 0
        (some (Except.error 7 : Except Nat Nat))).outcome =
      some (Except.error 7) ∧
    ((some (Except.error 7 : Except Nat Nat) =
        some (Except.error 7 : Except Nat Nat)) ∧
     (∀ n : Never, False) ∧
     (∀ x : CombinedRejection Nat, ∃ e0 : Nat, x = Sum.inl e0)) :=
  ⟨rfl, no_decorator_originated_failure renderNat rejectNat 0
    (some (Except.error 7 : Except Nat Nat)) 7 rfl⟩

/-- C5: within one completed invocation the causal order is strict: the
trace has the start capture at a strictly earlier position than the start of
the inner stage, which precedes the inner stage's completion, which precedes
classification, which precedes the observer call with the `Info` record,
which precedes forwarding the outcome; and since the completion instant of a
monotonic clock is not before the captured start, the elapsed duration
`tEnd - start` is non-negative. -/
theorem strict_causal_order {A E : Type}
    (into_response : A → Response) (statusOf : E → StatusCode)
    (start tEnd : Instant) (r : Except E A) (hmono : start ≤ tEnd) :
    (∃ i1 i2 i3 i4 i5 i6 : Nat,
      i1 < i2 ∧ i2 < i3 ∧ i3 < i4 ∧ i4 < i5 ∧ i5 < i6 ∧
      (decorateTrace into_response statusOf start r)[i1]? =
        some (Event.startCapture start) ∧
      (decorateTrace into_response statusOf start r)[i2]? =
        some Event.innerRun ∧
      (decorateTrace into_response statusOf start r)[i3]? =
        some (Event.innerComplete r) ∧
      (decorateTrace into_response statusOf start r)[i4]? =
        some (Event.classified (classify into_response statusOf r)) ∧
      (decorateTrace into_response statusOf start r)[i5]? =
        some (Event.observed
          { start := start, status := classify into_response statusOf r }) ∧
      (∃ out, (decorateTrace into_response statusOf start r)[i6]? =
        some (Event.forwarded out))) ∧
    0 ≤ tEnd - start := by
  constructor
  · refine ⟨0, 1, 2, 3, 4, 5, by omega, by omega, by omega, by omega,
      by omega, ?_, ?_, ?_, ?_, ?_, ?_⟩ <;>
      cases r <;> simp [decorateTrace, classify]
  · exact Int.sub_nonneg.mpr hmono

/-- Witness for C5 at a concrete completed invocation. -/
theorem strict_causal_order_witness :
    (0 : Instant) ≤ 5 ∧
    ((∃ i1 i2 i3 i4 i5 i6 : Nat,
      i1 < i2 ∧ i2 < i3 ∧ i3 < i4 ∧ i4 < i5 ∧ i5 < i6 ∧
      (decorateTrace renderNat rejectNat 0
        (Except.ok 3 : Except Nat Nat))[i1]? =
        some (Event.startCapture 0) ∧
      (decorateTrace renderNat rejectNat 0
        (Except.ok 3 : Except Nat Nat))[i2]? = some Event.innerRun ∧
      (decorateTrace renderNat rejectNat 0
        (Except.ok 3 : Except Nat Nat))[i3]? =
        some (Event.innerComplete (Except.ok 3)) ∧
      (decorateTrace renderNat rejectNat 0
        (Except.ok 3 : Except Nat Nat))[i4]? =
        some (Event.classified (classify renderNat rejectNat (Except.ok 3))) ∧
      (decorateTrace renderNat rejectNat 0
        (Except.ok 3 : Except Nat Nat))[i5]? =
        some (Event.observed
          { start := 0,
            status := classify renderNat rejectNat (Except.ok 3) }) ∧
      (∃ out, (decorateTrace renderNat rejectNat 0
        (Except.ok 3 : Except Nat Nat))[i6]? =
        some (Event.forwarded out))) ∧
    (0 : Int) ≤ 5 - 0) :=
  ⟨by decide, strict_causal_order renderNat rejectNat 0 5
    (Except.ok 3 : Except Nat Nat) (by decide)⟩

/-- C6: for an invocation cancelled before the inner stage completes, the
`then` closure never runs: no outcome is forwarded, the observer is never
invoked and no `Info` record is constructed. -/
theorem cancelled_invocation_no_observer {A E : Type}
    (into_response : A → Response) (statusOf : E → StatusCode)
    (start : Instant) :
    (decorate into_response statusOf start
      (none : Option (Except E A))).observerCalls = [] ∧
    (decorate into_response statusOf start
      (none : Option (Except E A))).outcome = none :=
  ⟨rfl, rfl⟩

/-- C7: on a successful inner outcome the success value is rendered exactly
once, the status reported to the observer is read from that one rendered
response, and the forwarded success value is the transparent wrapper around
that very same response. -/
theorem success_rendered_once_and_wrapped {A E : Type}
    (into_response : A → Response) (statusOf : E → StatusCode)
    (start : Instant) (rep : A) :
    (decorate into_response statusOf start
        (some (Except.ok rep : Except E A))).renders = [into_response rep] ∧
    (decorate into_response statusOf start
        (some (Except.ok rep : Except E A))).outcome =
      some (Except.ok (Logged.mk (into_response rep), PUnit.unit)) ∧
    (decorate into_response statusOf start
        (some (Except.ok rep : Except E A))).observerCalls =
      [{ start := start, status := (into_response rep).status }] :=
  ⟨rfl, rfl, rfl⟩

/-- C8: one completed invocation of a stage decorated with the default
observer of `log(name)` emits exactly one formatted access-log line, tagged
with `name` as target, carrying the ambient route's method, full path and
protocol version as read when the observer runs, the numeric status code of
the classified outcome, and the elapsed duration since `start`. -/
theorem log_emits_one_access_line {A E : Type}
    (into_response : A → Response) (statusOf : E → StatusCode)
    (name : String) (route : Route) (now start : Instant)
    (r : Except E A) :
    logDecorate into_response statusOf name route now start (some r) =
      [{ target := name, method := route.method,
         full_path := route.full_path, version := route.version,
         status := classify into_response statusOf r,
         elapsed := now - start }] := by
  cases r <;> rfl

/-- C9: whatever the inner stage's extract type `A` (any arity), a completed
successful invocation of the decorated stage extracts exactly one value: a
single `Logged` wrapper in warp's one-element tuple `One`. -/
theorem decorated_success_is_single_logged {A E : Type}
    (into_response : A → Response) (statusOf : E → StatusCode)
    (start : Instant) (rep : A) :
    ∃ l : Logged,
      (decorate into_response statusOf start
          (some (Except.ok rep : Except E A))).outcome =
        some (Except.ok (l, PUnit.unit)) ∧
      l = Logged.mk (into_response rep) :=
  ⟨Logged.mk (into_response rep), rfl, rfl⟩

/-- C10: the decorated invocation is deterministic: equal captured start
instants and equal inner outcomes yield equal forwarded outcomes, equal
observer calls and equal renders — the decorator reads nothing else. -/
theorem decorate_deterministic {A E : Type}
    (into_response : A → Response) (statusOf : E → StatusCode)
    (s1 s2 : Instant) (r1 r2 : Option (Except E A))
    (hs : s1 = s2) (hr : r1 = r2) :
    decorate into_response statusOf s1 r1 =
      decorate into_response statusOf s2 r2 := by
  rw [hs, hr]

/-- Witness for C10 at concrete equal inputs. -/
theorem decorate_deterministic_witness :
    (0 : Instant) = 0 ∧
    (some (Except.ok 3) : Option (Except Nat Nat)) = some (Except.ok 3) ∧
    decorate renderNat rejectNat 0
        (some (Except.ok 3 : Except Nat Nat)) =
      decorate renderNat rejectNat 0 (some (Except.ok 3 : Except Nat Nat)) :=
  ⟨rfl, rfl, decorate_deterministic renderNat rejectNat 0 0
    (some (Except.ok 3 : Except Nat Nat))
    (some (Except.ok 3 : Except Nat Nat)) rfl rfl⟩

end Warp
